import Mathlib

/-!
Shallow embedding of the buffer pool subsystem of the repository
(src/buffer/buffer_pool_manager.cpp, src/storage/page/page_guard.cpp,
src/storage/disk/disk_scheduler.cpp), together with theorems checking the
frozen claims about it.

Conventions of the embedding:
- Machine integers (page ids, frame ids, pin counts) are modelled as Nat;
  the source never relies on overflow for these counters.
- The frame array frames_ is modelled as a total map Nat -> FrameHeader;
  every access the source performs is in bounds of the vector.
- The pool runs single-threadedly here: a DiskScheduler Schedule followed by
  future.get() is one synchronous disk operation, and every operation also
  returns the list of requests it handed to the disk scheduler, so that
  theorems can talk about which I/O happened.
- A shared_mutex on which .lock() would block forever in a single-threaded
  execution is reported through the explicit CheckedResult.blocked outcome;
  std::optional::value() on an empty optional is CheckedResult.crash.
-/

/-- Page size constant BUSTUB_PAGE_SIZE from common/config.h (the header is not
part of the sources; the spec fixes it as a compile-time constant, typically
4096 bytes). -/
def PAGE_SIZE : Nat := 4096

/-- The all-zero page buffer, the content given to a frame by the FrameHeader
constructor and by FrameHeader::Reset. -/
def zeroPage : List Nat := List.replicate PAGE_SIZE 0

/-- State of a frame's reader-writer latch (std::shared_mutex rwlatch_).
The source only ever takes the exclusive lock (both guard constructors call
rwlatch_.lock()); the shared constructor exists so that statements can
distinguish the two modes. -/
inductive LatchState
  | free
  | shared (holders : Nat)
  | exclusive
deriving DecidableEq

/-- FrameHeader from buffer_pool_manager.h: a page-sized byte buffer, a pin
counter, a dirty flag, the frame's own index, and the rw-latch. -/
structure FrameHeader where
  frame_id : Nat
  data : List Nat
  pin_count : Nat
  is_dirty : Bool
  latch : LatchState
deriving DecidableEq

/-- FrameHeader::Reset: zero-fill the data buffer, store 0 to the pin count,
clear the dirty flag. The rw-latch is not touched. -/
def FrameHeader.Reset (h : FrameHeader) : FrameHeader :=
  { h with data := zeroPage, pin_count := 0, is_dirty := false }

/-- Modelled from the spec: the LRU-K replacer's implementation
(src/buffer/lru_k_replacer.cpp) is not among the sources; section 4.2 of the
spec gives only its interface. The state kept here is the list of currently
evictable frames, in the order they were marked evictable; the replacement
policy is opaque in the spec, so Evict returns the first evictable frame. -/
structure Replacer where
  evictable : List Nat
deriving DecidableEq

/-- Modelled from the spec: record_access notes an access for the (opaque)
policy and changes no evictability, so it is the identity here. -/
def Replacer.recordAccess (r : Replacer) (_f : Nat) : Replacer := r

/-- Modelled from the spec: set_evictable toggles whether evict may return the
frame. -/
def Replacer.setEvictable (r : Replacer) (f : Nat) (b : Bool) : Replacer :=
  if b then (if f ∈ r.evictable then r else ⟨r.evictable ++ [f]⟩)
  else ⟨r.evictable.filter (fun x => x ≠ f)⟩

/-- Modelled from the spec: evict returns a victim among the currently
evictable frames, marking it non-evictable, or none when no frame is
evictable. -/
def Replacer.evict (r : Replacer) : Option Nat × Replacer :=
  match r.evictable with
  | [] => (none, r)
  | f :: rest => (some f, ⟨rest⟩)

/-- Modelled from the spec: the disk manager (a block-device abstraction) is
not among the sources. Pages are an association list from page id to page
bytes, and capacity counts how many page ids are addressable (ids 0..capacity-1). -/
structure Disk where
  pages : List (Nat × List Nat)
  capacity : Nat
deriving DecidableEq

/-- Modelled from the spec: read_page returns the stored bytes; a freshly
allocated, never-written page reads as zeroed bytes. -/
def Disk.readPage (d : Disk) (pid : Nat) : List Nat :=
  match d.pages.lookup pid with
  | some b => b
  | none => zeroPage

/-- Modelled from the spec: write_page stores the bytes for a page id. -/
def Disk.writePage (d : Disk) (pid : Nat) (b : List Nat) : Disk :=
  { d with pages := (pid, b) :: d.pages.filter (fun e => e.1 ≠ pid) }

/-- Modelled from the spec: increase_disk_space ensures the backing store can
address at least the given page id. -/
def Disk.increaseDiskSpace (d : Disk) (upTo : Nat) : Disk :=
  { d with capacity := max d.capacity (upTo + 1) }

/-- A request the buffer pool manager hands to the disk scheduler (or, for
increase/deallocate, directly to the scheduler's synchronous entry points).
Operations below return the list of these so that theorems can observe I/O. -/
inductive DiskOp
  | read (pid : Nat)
  | write (pid : Nat) (data : List Nat)
  | increaseDiskSpace (upTo : Nat)
  | deallocate (pid : Nat)
deriving DecidableEq

/-- The buffer pool manager state: frame array, page table (page id to frame
id, keys unique), FIFO free frame list, the monotone page id allocator, the
replacer and the disk reachable through the disk scheduler. -/
structure BufferPoolManager where
  num_frames : Nat
  next_page_id : Nat
  frames : Nat → FrameHeader
  page_table : List (Nat × Nat)
  free_frames : List Nat
  replacer : Replacer
  disk : Disk

/-- The frame header stored at index f of the frame array. -/
def getFrame (s : BufferPoolManager) (f : Nat) : FrameHeader := s.frames f

/-- Replace the frame header at index f by applying g to it. -/
def updateFrame (s : BufferPoolManager) (f : Nat) (g : FrameHeader → FrameHeader) :
    BufferPoolManager :=
  { s with frames := fun i => if i = f then g (s.frames i) else s.frames i }

/-- The BufferPoolManager constructor: all frames initialized (the FrameHeader
constructor zero-fills data and calls Reset), the free list holds all frame
ids in order, the page table is empty and the allocator counter is 0. -/
def bpmInit (num_frames : Nat) : BufferPoolManager :=
  { num_frames := num_frames
  , next_page_id := 0
  , frames := fun i =>
      { frame_id := i, data := zeroPage, pin_count := 0, is_dirty := false
      , latch := LatchState.free }
  , page_table := []
  , free_frames := List.range num_frames
  , replacer := ⟨[]⟩
  , disk := ⟨[], 0⟩ }

/-- BufferPoolManager::NewPage: read the counter, increment it, then call
DiskScheduler::IncreaseDiskSpace with the incremented counter value. The page
table and the free list are not consulted. -/
def BufferPoolManager.NewPage (s : BufferPoolManager) :
    Nat × BufferPoolManager × List DiskOp :=
  let new_page_id := s.next_page_id
  let next := s.next_page_id + 1
  (new_page_id,
   { s with next_page_id := next, disk := s.disk.increaseDiskSpace next },
   [DiskOp.increaseDiskSpace next])

/-- BufferPoolManager::FlushPage: look the page up in the page table; absent
pages and clean frames return false without I/O; a dirty frame's bytes are
scheduled as a write, the completion future is awaited, the dirty flag is
cleared and true is returned. -/
def BufferPoolManager.FlushPage (s : BufferPoolManager) (pid : Nat) :
    Bool × BufferPoolManager × List DiskOp :=
  match s.page_table.lookup pid with
  | none => (false, s, [])
  | some f =>
    if (s.frames f).is_dirty = false then (false, s, [])
    else
      let bytes := (s.frames f).data
      let s1 := { s with disk := s.disk.writePage pid bytes }
      let s2 := updateFrame s1 f (fun h => { h with is_dirty := false })
      (true, s2, [DiskOp.write pid bytes])

/-- BufferPoolManager::DeletePage, in source order: absent pages return true;
a pinned frame returns false without modification; otherwise the page-table
entry is erased, the frame is appended to the free list, FlushPage(page_id) is
called when the frame is dirty (note: the call happens after the erase, which
is exactly what the source does), DeallocatePage is requested, and the frame
is Reset. -/
def BufferPoolManager.DeletePage (s : BufferPoolManager) (pid : Nat) :
    Bool × BufferPoolManager × List DiskOp :=
  match s.page_table.lookup pid with
  | none => (true, s, [])
  | some cur_frame_id =>
    if 0 < (s.frames cur_frame_id).pin_count then (false, s, [])
    else
      let s1 := { s with
        page_table := s.page_table.filter (fun e => e.1 ≠ pid)
      , free_frames := s.free_frames ++ [cur_frame_id] }
      let flushed := if (s1.frames cur_frame_id).is_dirty then s1.FlushPage pid
                     else (false, s1, [])
      let s2 := flushed.2.1
      let s3 := updateFrame s2 cur_frame_id FrameHeader.Reset
      (true, s3, flushed.2.2 ++ [DiskOp.deallocate pid])

/-- BufferPoolManager::UnpinPage: returns false when the page is absent or its
frame's pin count is greater than 0; when the pin count is 0 the frame is
marked evictable; returns true. No pin count is ever modified. -/
def BufferPoolManager.UnpinPage (s : BufferPoolManager) (pid : Nat) :
    Bool × BufferPoolManager :=
  match s.page_table.lookup pid with
  | none => (false, s)
  | some f =>
    if 0 < (s.frames f).pin_count then (false, s)
    else
      if (s.frames f).pin_count = 0 then
        (true, { s with replacer := s.replacer.setEvictable f true })
      else (true, s)

/-- BufferPoolManager::FindPage: reverse lookup of the page id mapped to a
frame id, first match in page-table iteration order, none when no entry maps
to the frame. -/
def BufferPoolManager.FindPage (s : BufferPoolManager) (f : Nat) : Option Nat :=
  (s.page_table.find? (fun e => e.2 = f)).map (fun e => e.1)

/-- A page guard (the shared shape of ReadPageGuard and WritePageGuard): the
protected page id, the frame it references (the shared_ptr into the frame
array is modelled by the frame's index), and the validity flag. -/
structure PageGuard where
  page_id : Nat
  frame_id : Nat
  is_valid : Bool
deriving DecidableEq

/-- The ReadPageGuard constructor: it calls rwlatch_.lock() — the exclusive
lock of the shared_mutex, which blocks while any holder exists (modelled by
returning none) — then increments the pin count, tells the replacer the frame
is not evictable, and sets the validity flag. -/
def ReadPageGuard.construct (pid f : Nat) (s : BufferPoolManager) :
    Option (PageGuard × BufferPoolManager) :=
  match (s.frames f).latch with
  | LatchState.free =>
    let s1 := updateFrame s f (fun h => { h with latch := LatchState.exclusive })
    let s2 := updateFrame s1 f (fun h => { h with pin_count := h.pin_count + 1 })
    let s3 := { s2 with
      replacer := s2.replacer.setEvictable (s2.frames f).frame_id false }
    some ({ page_id := pid, frame_id := f, is_valid := true }, s3)
  | _ => none

/-- The WritePageGuard constructor: it calls rwlatch_.lock(), sets the
validity flag and increments the pin count. Unlike the read constructor it
never talks to the replacer. -/
def WritePageGuard.construct (pid f : Nat) (s : BufferPoolManager) :
    Option (PageGuard × BufferPoolManager) :=
  match (s.frames f).latch with
  | LatchState.free =>
    let s1 := updateFrame s f (fun h => { h with latch := LatchState.exclusive })
    let s2 := updateFrame s1 f (fun h => { h with pin_count := h.pin_count + 1 })
    some ({ page_id := pid, frame_id := f, is_valid := true }, s2)
  | _ => none

/-- ReadPageGuard::Drop: on a valid guard, unlock the rw-latch, clear the
validity flag, decrement the pin count, and when the pin count reached 0 mark
the frame evictable; an invalid guard does nothing. The destructor simply
calls Drop. -/
def ReadPageGuard.Drop (g : PageGuard) (s : BufferPoolManager) :
    PageGuard × BufferPoolManager :=
  if g.is_valid then
    let s1 := updateFrame s g.frame_id (fun h => { h with latch := LatchState.free })
    let s2 := updateFrame s1 g.frame_id (fun h => { h with pin_count := h.pin_count - 1 })
    let s3 := if (s2.frames g.frame_id).pin_count = 0 then
        { s2 with replacer := s2.replacer.setEvictable (s2.frames g.frame_id).frame_id true }
      else s2
    ({ g with is_valid := false }, s3)
  else (g, s)

/-- WritePageGuard::Drop: same release sequence as ReadPageGuard::Drop. -/
def WritePageGuard.Drop (g : PageGuard) (s : BufferPoolManager) :
    PageGuard × BufferPoolManager :=
  if g.is_valid then
    let s1 := updateFrame s g.frame_id (fun h => { h with latch := LatchState.free })
    let s2 := updateFrame s1 g.frame_id (fun h => { h with pin_count := h.pin_count - 1 })
    let s3 := if (s2.frames g.frame_id).pin_count = 0 then
        { s2 with replacer := s2.replacer.setEvictable (s2.frames g.frame_id).frame_id true }
      else s2
    ({ g with is_valid := false }, s3)
  else (g, s)

/-- The ReadPageGuard move constructor: the target copies every field and the
source is invalidated (its pointers are nulled and is_valid is cleared, so a
later Drop or destructor on it does nothing). The first component is the
newly built guard, the second the moved-from source. -/
def ReadPageGuard.moveCtor (that : PageGuard) : PageGuard × PageGuard :=
  ({ page_id := that.page_id, frame_id := that.frame_id, is_valid := that.is_valid },
   { that with is_valid := false })

/-- The WritePageGuard move constructor, identical in structure. -/
def WritePageGuard.moveCtor (that : PageGuard) : PageGuard × PageGuard :=
  ({ page_id := that.page_id, frame_id := that.frame_id, is_valid := that.is_valid },
   { that with is_valid := false })

/-- WritePageGuard::GetDataMut marks the frame dirty before handing out the
mutable pointer; this models that dirty-marking effect (an invalid guard would
fail the BUSTUB_ENSURE, modelled as no change). -/
def WritePageGuard.GetDataMut (g : PageGuard) (s : BufferPoolManager) :
    BufferPoolManager :=
  if g.is_valid then updateFrame s g.frame_id (fun h => { h with is_dirty := true })
  else s

/-- Result of CheckedReadPage / CheckedWritePage in a single-threaded
execution: a guard with the new pool state and the I/O trace, a nullopt
return, a constructor blocked forever on a held rw-latch, or the
bad_optional_access crash of FindPage(...).value(). -/
inductive CheckedResult
  | guard (g : PageGuard) (s : BufferPoolManager) (tr : List DiskOp)
  | nullopt (s : BufferPoolManager) (tr : List DiskOp)
  | blocked
  | crash

/-- True exactly when the checked call returned std::nullopt. -/
def CheckedResult.returnedNone : CheckedResult → Bool
  | CheckedResult.nullopt _ _ => true
  | _ => false

/-- The guard returned by a successful checked call (dummy otherwise). -/
def CheckedResult.theGuard : CheckedResult → PageGuard
  | CheckedResult.guard g _ _ => g
  | _ => { page_id := 0, frame_id := 0, is_valid := false }

/-- The pool state after a checked call that returned (dummy otherwise). -/
def CheckedResult.theState : CheckedResult → BufferPoolManager
  | CheckedResult.guard _ s _ => s
  | CheckedResult.nullopt s _ => s
  | _ => bpmInit 0

/-- Pin count of frame f in the state carried by a successful checked call. -/
def CheckedResult.pinAfter (r : CheckedResult) (f : Nat) : Option Nat :=
  match r with
  | CheckedResult.guard _ s _ => some ((s.frames f).pin_count)
  | _ => none

/-- Evictable-frame list of the replacer after a successful checked call. -/
def CheckedResult.evictableAfter (r : CheckedResult) : Option (List Nat) :=
  match r with
  | CheckedResult.guard _ s _ => some s.replacer.evictable
  | _ => none

/-- Latch state of frame f after a successful checked call. -/
def CheckedResult.latchAfter (r : CheckedResult) (f : Nat) : Option LatchState :=
  match r with
  | CheckedResult.guard _ s _ => some ((s.frames f).latch)
  | _ => none

/-- Case 1 of CheckedReadPage (page-table hit): record the access, then build
the guard (AcquireRWLock's try-lock fails on a held latch and its result is
ignored by the source; the guard constructor then blocks on rwlatch_.lock()). -/
def readHit (s : BufferPoolManager) (pid f : Nat) : CheckedResult :=
  let s1 := { s with replacer := s.replacer.recordAccess f }
  match ReadPageGuard.construct pid f s1 with
  | some gs => CheckedResult.guard gs.1 gs.2 []
  | none => CheckedResult.blocked

/-- Case 2 of CheckedReadPage (miss with a free frame): pop the free-list
head, record access, install the page-table entry, read the page from disk
into the frame, and build the guard. -/
def readMissFree (s : BufferPoolManager) (pid f : Nat) (rest : List Nat) :
    CheckedResult :=
  let s1 := { s with free_frames := rest, replacer := s.replacer.recordAccess f }
  let s2 := { s1 with page_table := s1.page_table ++ [(pid, f)] }
  let s3 := updateFrame s2 f (fun h => { h with data := s2.disk.readPage pid })
  match ReadPageGuard.construct pid f s3 with
  | some gs => CheckedResult.guard gs.1 gs.2 [DiskOp.read pid]
  | none => CheckedResult.blocked

/-- The shared middle of the two eviction paths, in source order: FlushPage
of the victim page, Reset of the victim frame, record access, erase the
victim's page-table entry and install the new one. The disk read of the new
page has not happened yet when this returns. -/
def reclaimVictim (s : BufferPoolManager) (f victim pid : Nat) :
    BufferPoolManager × List DiskOp :=
  let flushed := s.FlushPage victim
  let s2 := updateFrame flushed.2.1 f FrameHeader.Reset
  let s3 := { s2 with replacer := s2.replacer.recordAccess f }
  let s4 := { s3 with
    page_table := (s3.page_table.filter (fun e => e.1 ≠ victim)) ++ [(pid, f)] }
  (s4, flushed.2.2)

/-- Case 3 of CheckedReadPage (miss, no free frame, the replacer produced a
victim): find the victim's page id (crash on the impossible none), reclaim the
frame, read the requested page from disk, and build the guard. -/
def readMissEvict (s : BufferPoolManager) (pid f : Nat) : CheckedResult :=
  match s.FindPage f with
  | none => CheckedResult.crash
  | some victim =>
    let rec1 := reclaimVictim s f victim pid
    let s5 := rec1.1
    let s6 := updateFrame s5 f (fun h => { h with data := s5.disk.readPage pid })
    match ReadPageGuard.construct pid f s6 with
    | some gs => CheckedResult.guard gs.1 gs.2 (rec1.2 ++ [DiskOp.read pid])
    | none => CheckedResult.blocked

/-- BufferPoolManager::CheckedReadPage: hit, miss-with-free-frame, or
eviction; when the replacer has no victim, std::nullopt is returned. -/
def BufferPoolManager.CheckedReadPage (s : BufferPoolManager) (pid : Nat) :
    CheckedResult :=
  match s.page_table.lookup pid with
  | some f => readHit s pid f
  | none =>
    match s.free_frames with
    | f :: rest => readMissFree s pid f rest
    | [] =>
      match s.replacer.evict with
      | (some f, rep2) => readMissEvict { s with replacer := rep2 } pid f
      | (none, _) => CheckedResult.nullopt s []

/-- Case 1 of CheckedWritePage (hit), mirroring readHit with the write guard
constructor. -/
def writeHit (s : BufferPoolManager) (pid f : Nat) : CheckedResult :=
  let s1 := { s with replacer := s.replacer.recordAccess f }
  match WritePageGuard.construct pid f s1 with
  | some gs => CheckedResult.guard gs.1 gs.2 []
  | none => CheckedResult.blocked

/-- Case 2 of CheckedWritePage (miss with a free frame). -/
def writeMissFree (s : BufferPoolManager) (pid f : Nat) (rest : List Nat) :
    CheckedResult :=
  let s1 := { s with free_frames := rest, replacer := s.replacer.recordAccess f }
  let s2 := { s1 with page_table := s1.page_table ++ [(pid, f)] }
  let s3 := updateFrame s2 f (fun h => { h with data := s2.disk.readPage pid })
  match WritePageGuard.construct pid f s3 with
  | some gs => CheckedResult.guard gs.1 gs.2 [DiskOp.read pid]
  | none => CheckedResult.blocked

/-- Case 3 of CheckedWritePage (eviction path). -/
def writeMissEvict (s : BufferPoolManager) (pid f : Nat) : CheckedResult :=
  match s.FindPage f with
  | none => CheckedResult.crash
  | some victim =>
    let rec1 := reclaimVictim s f victim pid
    let s5 := rec1.1
    let s6 := updateFrame s5 f (fun h => { h with data := s5.disk.readPage pid })
    match WritePageGuard.construct pid f s6 with
    | some gs => CheckedResult.guard gs.1 gs.2 (rec1.2 ++ [DiskOp.read pid])
    | none => CheckedResult.blocked

/-- BufferPoolManager::CheckedWritePage. -/
def BufferPoolManager.CheckedWritePage (s : BufferPoolManager) (pid : Nat) :
    CheckedResult :=
  match s.page_table.lookup pid with
  | some f => writeHit s pid f
  | none =>
    match s.free_frames with
    | f :: rest => writeMissFree s pid f rest
    | [] =>
      match s.replacer.evict with
      | (some f, rep2) => writeMissEvict { s with replacer := rep2 } pid f
      | (none, _) => CheckedResult.nullopt s []

/-- One step of BufferPoolManager::FlushAllPages' loop over the page table. -/
def flushAllGo : List (Nat × Nat) → BufferPoolManager →
    BufferPoolManager × List DiskOp
  | [], s => (s, [])
  | e :: rest, s =>
    let step := s.FlushPage e.1
    let tail := flushAllGo rest step.2.1
    (tail.1, step.2.2 ++ tail.2)

/-- BufferPoolManager::FlushAllPages: call FlushPage on every page id in the
page table (the BUSTUB_ASSERT on a false return compiles to a no-op here:
common/macros.h is not among the sources, and the spec describes the call as
best-effort iteration). -/
def BufferPoolManager.FlushAllPages (s : BufferPoolManager) :
    BufferPoolManager × List DiskOp :=
  flushAllGo s.page_table s

/-- Iterate NewPage n times, collecting the returned page ids in order. -/
def BufferPoolManager.newPages : BufferPoolManager → Nat → List Nat × BufferPoolManager
  | s, 0 => ([], s)
  | s, n + 1 =>
    let first := s.NewPage
    let rest := first.2.1.newPages n
    (first.1 :: rest.1, rest.2)

/-- A disk scheduler request record: operation kind, page id, and the page
buffer (for a write, the bytes to put on disk). The one-shot completion
promise is modelled by the completion event the worker emits. -/
structure DiskRequest where
  is_write : Bool
  page_id : Nat
  data : List Nat
deriving DecidableEq

/-- Observable actions of the disk scheduler's background worker: a disk
manager call, or the firing of a request's completion signal. -/
inductive WorkerEvent
  | didWrite (pid : Nat) (data : List Nat)
  | didRead (pid : Nat)
  | completion (success : Bool)
deriving DecidableEq

/-- The two worker events a single request produces, in order: the disk
manager call matching is_write, then the completion signal set to true. -/
def requestEvents (r : DiskRequest) : List WorkerEvent :=
  if r.is_write then [WorkerEvent.didWrite r.page_id r.data, WorkerEvent.completion true]
  else [WorkerEvent.didRead r.page_id, WorkerEvent.completion true]

/-- Processing of one request by the worker: a write request stores its bytes
through DiskManager::WritePage, a read request calls DiskManager::ReadPage
(the bytes land in the requester's buffer, which the events record). -/
def processRequest (d : Disk) (r : DiskRequest) : Disk × List WorkerEvent :=
  if r.is_write then (d.writePage r.page_id r.data, requestEvents r)
  else (d, requestEvents r)

/-- DiskScheduler::StartWorkerThread: take requests from the queue in FIFO
order; a nullopt request breaks the loop (everything after the sentinel is
never consumed); otherwise perform the matching disk manager operation and
then set the completion promise to true. The queue is modelled by the list of
values Get will deliver. -/
def StartWorkerThread : List (Option DiskRequest) → Disk → Disk × List WorkerEvent
  | [], d => (d, [])
  | none :: _, d => (d, [])
  | some r :: rest, d =>
    let step := processRequest d r
    let tail := StartWorkerThread rest step.1
    (tail.1, step.2 ++ tail.2)

/-!
Concrete pool states, reached by running the operations from a fresh pool of
one frame. They are used by the witnesses and counterexamples below.
-/

/-- A fresh pool with a single frame. -/
def sInit : BufferPoolManager := bpmInit 1

/-- After one NewPage call: page 0 allocated. -/
def sA : BufferPoolManager := (sInit.NewPage).2.1

/-- After a second NewPage call: pages 0 and 1 allocated, nothing resident. -/
def sB : BufferPoolManager := (sA.NewPage).2.1

/-- The write bring-in of page 0 from sB (miss with a free frame). -/
def cw0 : CheckedResult := sB.CheckedWritePage 0

/-- The live write guard over page 0. -/
def gW : PageGuard := cw0.theGuard

/-- Pool state while gW is live: page 0 resident in frame 0, pin count 1,
rw-latch held, replacer evictable list empty. -/
def sW : BufferPoolManager := cw0.theState

/-- sW after gW called GetDataMut: frame 0 is dirty. -/
def sWd : BufferPoolManager := WritePageGuard.GetDataMut gW sW

/-- sWd after dropping gW: page 0 resident and dirty, pin count 0, frame 0 on
the replacer's evictable list. -/
def sDel : BufferPoolManager := (WritePageGuard.Drop gW sWd).2

/-- Re-acquisition of a write guard on page 0 from sDel (a page-table hit):
the frame is pinned again, yet it is still on the replacer's evictable list
because the WritePageGuard constructor never clears evictability. -/
def cw1 : CheckedResult := sDel.CheckedWritePage 0

/-- Pool state while the re-acquired write guard is live. -/
def sC3 : BufferPoolManager := cw1.theState

example : (sW.frames 0).pin_count = 1 := by decide
example : sW.replacer.evictable = [] := by decide
example : sW.free_frames = [] := by decide
example : sW.page_table = [(0, 0)] := by decide
example : (sDel.frames 0).is_dirty = true := by decide
example : (sDel.frames 0).pin_count = 0 := by decide
example : sDel.replacer.evictable = [0] := by decide
example : (sC3.frames 0).pin_count = 1 := by decide
example : sC3.replacer.evictable = [0] := by decide
example : (sC3.frames 0).latch = LatchState.exclusive := by decide
example : (sC3.CheckedReadPage 1).returnedNone = false := by decide
example : (sDel.DeletePage 0).1 = true := by decide
example : (sDel.DeletePage 0).2.2 = [DiskOp.deallocate 0] := by decide
example : (sDel.DeletePage 0).2.1.disk = sDel.disk := by decide

/-! Helper lemmas about the frame array. -/

theorem frames_updateFrame_self (s : BufferPoolManager) (f : Nat)
    (g : FrameHeader → FrameHeader) : (updateFrame s f g).frames f = g (s.frames f) := by
  simp [updateFrame]

theorem frames_updateFrame_ne (s : BufferPoolManager) (f i : Nat)
    (g : FrameHeader → FrameHeader) (h : i ≠ f) :
    (updateFrame s f g).frames i = s.frames i := by
  simp [updateFrame, h]

theorem page_table_updateFrame (s : BufferPoolManager) (f : Nat)
    (g : FrameHeader → FrameHeader) : (updateFrame s f g).page_table = s.page_table := rfl

/-- C4: FlushPage returns false for a page id absent from the page map, and
false with no write for a resident clean frame; for a resident dirty frame it
writes the frame's bytes to disk, clears the dirty flag and returns true,
leaving the page table, free list and other frames unchanged. -/
theorem C4_flushPage (s : BufferPoolManager) (pid : Nat) :
    (s.page_table.lookup pid = none → s.FlushPage pid = (false, s, []))
  ∧ (∀ f, s.page_table.lookup pid = some f → (s.frames f).is_dirty = false →
      s.FlushPage pid = (false, s, []))
  ∧ (∀ f, s.page_table.lookup pid = some f → (s.frames f).is_dirty = true →
        (s.FlushPage pid).1 = true
      ∧ (s.FlushPage pid).2.2 = [DiskOp.write pid ((s.frames f).data)]
      ∧ ((s.FlushPage pid).2.1).disk = s.disk.writePage pid ((s.frames f).data)
      ∧ (((s.FlushPage pid).2.1).frames f).is_dirty = false
      ∧ ((s.FlushPage pid).2.1).page_table = s.page_table
      ∧ ((s.FlushPage pid).2.1).free_frames = s.free_frames
      ∧ ∀ i, i ≠ f → ((s.FlushPage pid).2.1).frames i = s.frames i) := by
  refine ⟨fun h => ?_, fun f h hd => ?_, fun f h hd => ?_⟩
  · simp [BufferPoolManager.FlushPage, h]
  · simp [BufferPoolManager.FlushPage, h, hd]
  · have hmain : ∀ i, i ≠ f → ((s.FlushPage pid).2.1).frames i = s.frames i := by
      intro i hi
      simp [BufferPoolManager.FlushPage, h, hd, updateFrame, hi]
    refine ⟨?_, ?_, ?_, ?_, ?_, ?_, hmain⟩ <;>
      simp [BufferPoolManager.FlushPage, h, hd, updateFrame]

/-- Witness for C4 at concrete pools: an absent page, a resident clean page
and a resident dirty page. -/
theorem C4_flushPage_witness :
    sInit.FlushPage 5 = (false, sInit, [])
  ∧ sW.FlushPage 0 = (false, sW, [])
  ∧ (sDel.FlushPage 0).1 = true
  ∧ (sDel.FlushPage 0).2.2 = [DiskOp.write 0 ((sDel.frames 0).data)]
  ∧ ((sDel.FlushPage 0).2.1).frames 3 = sDel.frames 3 :=
  ⟨(C4_flushPage sInit 5).1 (by decide),
   (C4_flushPage sW 0).2.1 0 (by decide) (by decide),
   ((C4_flushPage sDel 0).2.2 0 (by decide) (by decide)).1,
   ((C4_flushPage sDel 0).2.2 0 (by decide) (by decide)).2.1,
   ((C4_flushPage sDel 0).2.2 0 (by decide) (by decide)).2.2.2.2.2.2 3 (by decide)⟩

/-- C9: UnpinPage never decrements any pin count (the frame array is returned
unchanged); it returns false when the page is absent or its frame is pinned,
and returns true exactly on a resident frame with pin count 0, its only
effect being to mark that frame evictable. -/
theorem C9_unpinPage (s : BufferPoolManager) (pid : Nat) :
    ((s.UnpinPage pid).2.frames = s.frames)
  ∧ ((s.UnpinPage pid).2.page_table = s.page_table)
  ∧ ((s.UnpinPage pid).2.free_frames = s.free_frames)
  ∧ ((s.UnpinPage pid).2.disk = s.disk)
  ∧ (s.page_table.lookup pid = none → s.UnpinPage pid = (false, s))
  ∧ (∀ f, s.page_table.lookup pid = some f → 0 < (s.frames f).pin_count →
        s.UnpinPage pid = (false, s))
  ∧ (∀ f, s.page_table.lookup pid = some f → (s.frames f).pin_count = 0 →
        s.UnpinPage pid = (true, { s with replacer := s.replacer.setEvictable f true })) := by
  have hsplit : ∀ f : Nat, s.page_table.lookup pid = some f →
      s.UnpinPage pid = (if 0 < (s.frames f).pin_count then (false, s)
        else (true, { s with replacer := s.replacer.setEvictable f true })) := by
    intro f h
    by_cases hp : 0 < (s.frames f).pin_count
    · simp [BufferPoolManager.UnpinPage, h, hp]
    · have h0 : (s.frames f).pin_count = 0 := by omega
      simp [BufferPoolManager.UnpinPage, h, hp, h0]
  refine ⟨?_, ?_, ?_, ?_, fun h => by simp [BufferPoolManager.UnpinPage, h],
    fun f h hp => by simp [hsplit f h, hp],
    fun f h h0 => by simp [hsplit f h, h0]⟩ <;>
  · cases h : s.page_table.lookup pid with
    | none => simp [BufferPoolManager.UnpinPage, h]
    | some f => by_cases hp : 0 < (s.frames f).pin_count <;> simp [hsplit f h, hp]

/-- Witness for C9 at concrete pools: an absent page, a pinned resident page
and an unpinned resident page. -/
theorem C9_unpinPage_witness :
    sInit.UnpinPage 5 = (false, sInit)
  ∧ sW.UnpinPage 0 = (false, sW)
  ∧ sDel.UnpinPage 0 = (true, { sDel with replacer := sDel.replacer.setEvictable 0 true }) :=
  ⟨(C9_unpinPage sInit 5).2.2.2.2.1 (by decide),
   (C9_unpinPage sW 0).2.2.2.2.2.1 0 (by decide) (by decide),
   (C9_unpinPage sDel 0).2.2.2.2.2.2 0 (by decide) (by decide)⟩

/-- The page ids handed out by n successive NewPage calls are consecutive,
starting at the allocator counter. -/
theorem newPages_eq_range' (s : BufferPoolManager) (n : Nat) :
    (s.newPages n).1 = List.range' s.next_page_id n := by
  induction n generalizing s with
  | zero => rfl
  | succ n ih =>
    simp [BufferPoolManager.newPages, BufferPoolManager.NewPage, ih, List.range']

/-- C7: NewPage is total (it always returns an id), returns the allocator
counter and bumps it by one, so ids are handed out consecutively without
reuse (the first call on a fresh pool returns 0, and n calls return the
consecutive range); it reserves disk space covering the new id and leaves the
page table, the free list and the frames untouched. -/
theorem C7_newPage (s : BufferPoolManager) (m n : Nat) :
    (s.NewPage).1 = s.next_page_id
  ∧ ((s.NewPage).2.1).next_page_id = s.next_page_id + 1
  ∧ ((s.NewPage).2.1).page_table = s.page_table
  ∧ ((s.NewPage).2.1).free_frames = s.free_frames
  ∧ ((s.NewPage).2.1).frames = s.frames
  ∧ (s.NewPage).1 < ((s.NewPage).2.1).disk.capacity
  ∧ (s.NewPage).2.2 = [DiskOp.increaseDiskSpace (s.next_page_id + 1)]
  ∧ ((s.NewPage).2.1.NewPage).1 = (s.NewPage).1 + 1
  ∧ ((bpmInit m).NewPage).1 = 0
  ∧ (s.newPages n).1 = List.range' s.next_page_id n := by
  refine ⟨rfl, rfl, rfl, rfl, rfl, ?_, rfl, rfl, rfl, newPages_eq_range' s n⟩
  show s.next_page_id < max s.disk.capacity (s.next_page_id + 1 + 1)
  exact lt_of_lt_of_le (by omega) (le_max_right _ _)

/-- The worker's handling of one request emits the matching disk manager call
followed by the completion event. -/
theorem processRequest_events (d : Disk) (r : DiskRequest) :
    (processRequest d r).2 = requestEvents r := by
  by_cases h : r.is_write <;> simp [processRequest, h]

/-- C8: the background worker consumes the queue in FIFO order up to the
nullopt sentinel (requests after the sentinel are never consumed); each
consumed request performs the disk manager operation selected by is_write
(write_page when set, read_page otherwise) and only afterwards fires its
completion signal with success true. -/
theorem C8_worker (qs : List DiskRequest) (rest : List (Option DiskRequest)) (d : Disk) :
    StartWorkerThread (qs.map some ++ none :: rest) d
      = (qs.foldl (fun acc r => (processRequest acc r).1) d, (qs.map requestEvents).flatten)
  ∧ (∀ r : DiskRequest, requestEvents r
      = [if r.is_write then WorkerEvent.didWrite r.page_id r.data
         else WorkerEvent.didRead r.page_id, WorkerEvent.completion true])
  ∧ (∀ (d2 : Disk) (r : DiskRequest),
      (processRequest d2 r).1 = (if r.is_write then d2.writePage r.page_id r.data else d2)) := by
  refine ⟨?_, fun r => ?_, fun d2 r => ?_⟩
  · induction qs generalizing d with
    | nil => rfl
    | cons r qs ih => simp [StartWorkerThread, ih, processRequest_events]
  · by_cases h : r.is_write <;> simp [requestEvents, h]
  · by_cases h : r.is_write <;> simp [processRequest, h]

/-- C10: FrameHeader::Reset zero-fills the whole PAGE_SIZE-byte buffer, zeroes
the pin count and clears the dirty flag; consequently the frame buffer is all
zero bytes after a successful DeletePage, and in the eviction path of the
checked bring-in functions the reclaimed victim frame's buffer is all zeros
before the new page's disk read is issued (reclaimVictim is exactly the
eviction path up to that read). -/
theorem C10_reset_zero_fill (h : FrameHeader) (s : BufferPoolManager)
    (pid f victim : Nat) :
    h.Reset.data = List.replicate PAGE_SIZE 0
  ∧ h.Reset.data.length = PAGE_SIZE
  ∧ (∀ i (hi : i < h.Reset.data.length), h.Reset.data.get ⟨i, hi⟩ = 0)
  ∧ h.Reset.pin_count = 0
  ∧ h.Reset.is_dirty = false
  ∧ (∀ f2, s.page_table.lookup pid = some f2 → (s.frames f2).pin_count = 0 →
      ((s.DeletePage pid).2.1.frames f2).data = List.replicate PAGE_SIZE 0)
  ∧ ((reclaimVictim s f victim pid).1.frames f).data = List.replicate PAGE_SIZE 0 := by
  refine ⟨rfl, by simp [FrameHeader.Reset, zeroPage], ?_, rfl, rfl, ?_, ?_⟩
  · intro i hi
    simp [FrameHeader.Reset, zeroPage]
  · intro f2 hl hp
    have hnp : ¬ 0 < (s.frames f2).pin_count := by omega
    simp only [BufferPoolManager.DeletePage, hl, hnp, if_false]
    simp [frames_updateFrame_self, FrameHeader.Reset, zeroPage]
  · simp only [reclaimVictim]
    simp [frames_updateFrame_self, FrameHeader.Reset, zeroPage]

/-- Witness for C10: deleting the resident, unpinned, dirty page 0 of the
concrete pool sDel leaves frame 0 zero-filled. -/
theorem reset_data_len_pos (h : FrameHeader) : 0 < h.Reset.data.length := by
  rw [show h.Reset.data = List.replicate PAGE_SIZE 0 from rfl, List.length_replicate]
  norm_num [PAGE_SIZE]

theorem C10_reset_zero_fill_witness :
    ((sDel.DeletePage 0).2.1.frames 0).data = List.replicate PAGE_SIZE 0
  ∧ (sInit.frames 0).Reset.data.get ⟨0, reset_data_len_pos (sInit.frames 0)⟩ = 0 :=
  ⟨(C10_reset_zero_fill (sInit.frames 0) sDel 0 0 0).2.2.2.2.2.1 0 (by decide) (by decide),
   (C10_reset_zero_fill (sInit.frames 0) sDel 0 0 0).2.2.1 0
     (reset_data_len_pos (sInit.frames 0))⟩

/-- C1: the claim says DeletePage flushes a dirty frame's contents to disk,
but the source erases the page-table entry before calling FlushPage, so
FlushPage cannot find the page and writes nothing: at the concrete pool sDel
(page 0 resident in frame 0, dirty, pin count 0) DeletePage(0) returns true
and its I/O trace holds only the deallocation request — no write — and the
disk still has no bytes for page 0 afterwards. The other branches of the
claim do hold (see the conjuncts on absent and pinned pages). -/
theorem C1_deletePage_drops_dirty_data :
    (sDel.frames 0).is_dirty = true
  ∧ sDel.page_table.lookup 0 = some 0
  ∧ (sDel.frames 0).pin_count = 0
  ∧ (sDel.DeletePage 0).1 = true
  ∧ (sDel.DeletePage 0).2.2 = [DiskOp.deallocate 0]
  ∧ (sDel.DeletePage 0).2.1.disk = sDel.disk
  ∧ sDel.disk.pages.lookup 0 = none
  ∧ (sDel.DeletePage 0).2.1.page_table = []
  ∧ (sDel.DeletePage 0).2.1.free_frames = [0]
  ∧ sDel.DeletePage 5 = (true, sDel, [])
  ∧ sW.DeletePage 0 = (false, sW, []) := by
  refine ⟨by decide, by decide, by decide, by decide, by decide, by decide,
    by decide, by decide, by decide, rfl, rfl⟩

/-- C2: the claim says every guard construction acquires the rw-latch in the
matching mode, pins the frame, and tells the replacer the frame is not
evictable. At the concrete pool sDel (frame 0 unpinned but on the evictable
list after a guard drop), re-acquiring a write guard pins the frame yet
leaves it on the replacer's evictable list (the WritePageGuard constructor
never calls SetEvictable), and a read guard acquires the exclusive — not the
shared — latch mode. -/
theorem C2_guard_construction_divergence :
    sDel.replacer.evictable = [0]
  ∧ (sDel.frames 0).pin_count = 0
  ∧ (sDel.CheckedWritePage 0).pinAfter 0 = some 1
  ∧ (sDel.CheckedWritePage 0).evictableAfter = some [0]
  ∧ (sDel.CheckedWritePage 0).latchAfter 0 = some LatchState.exclusive
  ∧ (sDel.CheckedReadPage 0).pinAfter 0 = some 1
  ∧ (sDel.CheckedReadPage 0).latchAfter 0 = some LatchState.exclusive
  ∧ (sDel.CheckedReadPage 0).evictableAfter = some [] := by decide

/-- C5: dropping a live guard clears its validity flag, decrements the
frame's pin count by exactly one, releases the rw-latch, and touches the
replacer exactly when the pin count became 0 (marking the frame evictable);
everything else — other frames, this frame's data, dirty flag and id, the
page table, free list and disk — is unchanged, and WritePageGuard::Drop is
the same release sequence. A second drop of the now-invalid guard, a drop of
any invalid guard, and a drop (or the destructor, which just calls Drop) of a
moved-from guard change nothing. -/
theorem C5_guard_drop (g : PageGuard) (s : BufferPoolManager) :
    (g.is_valid = true → 0 < (s.frames g.frame_id).pin_count →
        ((ReadPageGuard.Drop g s).1.is_valid = false
      ∧ ((ReadPageGuard.Drop g s).2.frames g.frame_id).pin_count + 1
          = (s.frames g.frame_id).pin_count
      ∧ ((ReadPageGuard.Drop g s).2.frames g.frame_id).latch = LatchState.free
      ∧ (ReadPageGuard.Drop g s).2.replacer
          = (if (s.frames g.frame_id).pin_count - 1 = 0 then
               s.replacer.setEvictable (s.frames g.frame_id).frame_id true
             else s.replacer)
      ∧ ((ReadPageGuard.Drop g s).2.frames g.frame_id).data
          = (s.frames g.frame_id).data
      ∧ ((ReadPageGuard.Drop g s).2.frames g.frame_id).is_dirty
          = (s.frames g.frame_id).is_dirty
      ∧ (∀ i, i ≠ g.frame_id → (ReadPageGuard.Drop g s).2.frames i = s.frames i)
      ∧ (ReadPageGuard.Drop g s).2.page_table = s.page_table
      ∧ (ReadPageGuard.Drop g s).2.free_frames = s.free_frames
      ∧ (ReadPageGuard.Drop g s).2.disk = s.disk
      ∧ ReadPageGuard.Drop (ReadPageGuard.Drop g s).1 (ReadPageGuard.Drop g s).2
          = ((ReadPageGuard.Drop g s).1, (ReadPageGuard.Drop g s).2)))
  ∧ (g.is_valid = false → ReadPageGuard.Drop g s = (g, s))
  ∧ WritePageGuard.Drop g s = ReadPageGuard.Drop g s
  ∧ ReadPageGuard.Drop (ReadPageGuard.moveCtor g).2 s = ((ReadPageGuard.moveCtor g).2, s)
  ∧ WritePageGuard.Drop (WritePageGuard.moveCtor g).2 s = ((WritePageGuard.moveCtor g).2, s) := by
  have hinv : ∀ (g2 : PageGuard) (s2 : BufferPoolManager), g2.is_valid = false →
      ReadPageGuard.Drop g2 s2 = (g2, s2) := by
    intro g2 s2 h2
    simp [ReadPageGuard.Drop, h2]
  refine ⟨fun hv hp => ?_, hinv g s, ?_, ?_, ?_⟩
  · have hdone : (ReadPageGuard.Drop g s).1.is_valid = false := by
      simp [ReadPageGuard.Drop, hv]
    refine ⟨hdone, ?_, ?_, ?_, ?_, ?_, fun i hi => ?_, ?_, ?_, ?_, ?_⟩
    · by_cases hz : (s.frames g.frame_id).pin_count - 1 = 0 <;>
        · simp [ReadPageGuard.Drop, hv, updateFrame, hz]
          omega
    · by_cases hz : (s.frames g.frame_id).pin_count - 1 = 0 <;>
        simp [ReadPageGuard.Drop, hv, updateFrame, hz]
    · by_cases hz : (s.frames g.frame_id).pin_count - 1 = 0 <;>
        simp [ReadPageGuard.Drop, hv, updateFrame, hz]
    · by_cases hz : (s.frames g.frame_id).pin_count - 1 = 0 <;>
        simp [ReadPageGuard.Drop, hv, updateFrame, hz]
    · by_cases hz : (s.frames g.frame_id).pin_count - 1 = 0 <;>
        simp [ReadPageGuard.Drop, hv, updateFrame, hz]
    · by_cases hz : (s.frames g.frame_id).pin_count - 1 = 0 <;>
        simp [ReadPageGuard.Drop, hv, updateFrame, hz, hi]
    · by_cases hz : (s.frames g.frame_id).pin_count - 1 = 0 <;>
        simp [ReadPageGuard.Drop, hv, updateFrame, hz]
    · by_cases hz : (s.frames g.frame_id).pin_count - 1 = 0 <;>
        simp [ReadPageGuard.Drop, hv, updateFrame, hz]
    · by_cases hz : (s.frames g.frame_id).pin_count - 1 = 0 <;>
        simp [ReadPageGuard.Drop, hv, updateFrame, hz]
    · exact hinv (ReadPageGuard.Drop g s).1 (ReadPageGuard.Drop g s).2 hdone
  · simp [WritePageGuard.Drop, ReadPageGuard.Drop]
  · exact hinv (ReadPageGuard.moveCtor g).2 s rfl
  · have h3 : (WritePageGuard.moveCtor g).2.is_valid = false := rfl
    simp [WritePageGuard.Drop, h3]

/-- Witness for C5: dropping the live write guard gW on the concrete pool sWd
(frame 0 pinned once) and dropping an already-invalid guard. -/
theorem C5_guard_drop_witness :
    gW.is_valid = true
  ∧ 0 < (sWd.frames gW.frame_id).pin_count
  ∧ (ReadPageGuard.Drop gW sWd).1.is_valid = false
  ∧ ((ReadPageGuard.Drop gW sWd).2.frames gW.frame_id).pin_count + 1
      = (sWd.frames gW.frame_id).pin_count
  ∧ (ReadPageGuard.Drop gW sWd).2.frames 5 = sWd.frames 5
  ∧ ReadPageGuard.Drop { page_id := 0, frame_id := 0, is_valid := false } sWd
      = ({ page_id := 0, frame_id := 0, is_valid := false }, sWd) :=
  ⟨by decide, by decide,
   ((C5_guard_drop gW sWd).1 (by decide) (by decide)).1,
   ((C5_guard_drop gW sWd).1 (by decide) (by decide)).2.1,
   ((C5_guard_drop gW sWd).1 (by decide) (by decide)).2.2.2.2.2.2.1 5 (by decide),
   (C5_guard_drop { page_id := 0, frame_id := 0, is_valid := false } sWd).2.1 rfl⟩

/-! Case helpers of the checked bring-in paths never return std::nullopt:
only the evict-returned-none branch does. -/

theorem returnedNone_readHit (s : BufferPoolManager) (pid f : Nat) :
    (readHit s pid f).returnedNone = false := by
  simp only [readHit]
  split <;> rfl

theorem returnedNone_readMissFree (s : BufferPoolManager) (pid f : Nat)
    (rest : List Nat) : (readMissFree s pid f rest).returnedNone = false := by
  simp only [readMissFree]
  split <;> rfl

theorem returnedNone_readMissEvict (s : BufferPoolManager) (pid f : Nat) :
    (readMissEvict s pid f).returnedNone = false := by
  simp only [readMissEvict]
  split
  · rfl
  · split <;> rfl

theorem returnedNone_writeHit (s : BufferPoolManager) (pid f : Nat) :
    (writeHit s pid f).returnedNone = false := by
  simp only [writeHit]
  split <;> rfl

theorem returnedNone_writeMissFree (s : BufferPoolManager) (pid f : Nat)
    (rest : List Nat) : (writeMissFree s pid f rest).returnedNone = false := by
  simp only [writeMissFree]
  split <;> rfl

theorem returnedNone_writeMissEvict (s : BufferPoolManager) (pid f : Nat) :
    (writeMissEvict s pid f).returnedNone = false := by
  simp only [writeMissEvict]
  split
  · rfl
  · split <;> rfl

/-- C3 (amended): CheckedReadPage and CheckedWritePage return std::nullopt
exactly when the page is not resident, the free list is empty and the
replacer offers no evictable victim; in particular, when a pool's only frame
is resident for another page and the replacer holds no evictable frame (as
the spec's pin invariant demands of a pinned frame), any checked call for a
different page returns nullopt, changing nothing and issuing no I/O. -/
theorem C3_checked_none_iff (s : BufferPoolManager) (pid : Nat) :
    ((s.CheckedReadPage pid).returnedNone = true ↔
        s.page_table.lookup pid = none ∧ s.free_frames = [] ∧
          s.replacer.evictable = [])
  ∧ ((s.CheckedWritePage pid).returnedNone = true ↔
        s.page_table.lookup pid = none ∧ s.free_frames = [] ∧
          s.replacer.evictable = [])
  ∧ (s.page_table.lookup pid = none → s.free_frames = [] →
      s.replacer.evictable = [] →
        s.CheckedReadPage pid = CheckedResult.nullopt s []
      ∧ s.CheckedWritePage pid = CheckedResult.nullopt s []) := by
  have hread : ∀ (hl : s.page_table.lookup pid = none) (hf : s.free_frames = [])
      (he : s.replacer.evictable = []),
      s.CheckedReadPage pid = CheckedResult.nullopt s [] := by
    intro hl hf he
    simp [BufferPoolManager.CheckedReadPage, hl, hf, Replacer.evict, he]
  have hwrite : ∀ (hl : s.page_table.lookup pid = none) (hf : s.free_frames = [])
      (he : s.replacer.evictable = []),
      s.CheckedWritePage pid = CheckedResult.nullopt s [] := by
    intro hl hf he
    simp [BufferPoolManager.CheckedWritePage, hl, hf, Replacer.evict, he]
  refine ⟨⟨?_, fun h => by simp [hread h.1 h.2.1 h.2.2, CheckedResult.returnedNone]⟩,
    ⟨?_, fun h => by simp [hwrite h.1 h.2.1 h.2.2, CheckedResult.returnedNone]⟩,
    fun hl hf he => ⟨hread hl hf he, hwrite hl hf he⟩⟩
  · intro h
    cases hl : s.page_table.lookup pid with
    | some f =>
      rw [BufferPoolManager.CheckedReadPage, hl] at h
      simp [returnedNone_readHit] at h
    | none =>
      cases hf : s.free_frames with
      | cons f rest =>
        rw [BufferPoolManager.CheckedReadPage, hl, hf] at h
        simp [returnedNone_readMissFree] at h
      | nil =>
        cases he : s.replacer.evictable with
        | cons f rest =>
          rw [BufferPoolManager.CheckedReadPage, hl, hf] at h
          rw [show s.replacer.evict = (some f, ⟨rest⟩) from by
            simp [Replacer.evict, he]] at h
          simp [returnedNone_readMissEvict] at h
        | nil => exact ⟨rfl, rfl, rfl⟩
  · intro h
    cases hl : s.page_table.lookup pid with
    | some f =>
      rw [BufferPoolManager.CheckedWritePage, hl] at h
      simp [returnedNone_writeHit] at h
    | none =>
      cases hf : s.free_frames with
      | cons f rest =>
        rw [BufferPoolManager.CheckedWritePage, hl, hf] at h
        simp [returnedNone_writeMissFree] at h
      | nil =>
        cases he : s.replacer.evictable with
        | cons f rest =>
          rw [BufferPoolManager.CheckedWritePage, hl, hf] at h
          rw [show s.replacer.evict = (some f, ⟨rest⟩) from by
            simp [Replacer.evict, he]] at h
          simp [returnedNone_writeMissEvict] at h
        | nil => exact ⟨rfl, rfl, rfl⟩

/-- Witness for C3: on the concrete pool sW, whose single frame is pinned by
a live write guard and not evictable, a checked read of the absent page 1
returns nullopt. -/
theorem C3_checked_none_iff_witness :
    (sW.frames 0).pin_count = 1
  ∧ sW.CheckedReadPage 1 = CheckedResult.nullopt sW []
  ∧ sW.CheckedWritePage 1 = CheckedResult.nullopt sW [] :=
  ⟨by decide,
   ((C3_checked_none_iff sW 1).2.2 (by decide) (by decide) (by decide)).1,
   ((C3_checked_none_iff sW 1).2.2 (by decide) (by decide) (by decide)).2⟩

/-- C3 counterexample: the claim's particular case fails on the source. In
the concrete pool sC3 (one frame, its page 0 re-pinned by a live write guard
after an earlier guard cycle left the frame on the replacer's evictable
list), CheckedReadPage(1) does not return nullopt: the replacer yields the
pinned frame as a victim, the source evicts and resets the pinned frame, and
the call then blocks forever on the frame's held rw-latch. -/
theorem C3_counterexample :
    sC3.num_frames = 1
  ∧ sC3.page_table.lookup 1 = none
  ∧ sC3.free_frames = []
  ∧ (sC3.frames 0).pin_count = 1
  ∧ (sC3.CheckedReadPage 1).returnedNone = false := by decide

/-! Lemma chain for FlushAllPages. -/

/-- A successful association-list lookup means the key occurs in the list. -/
theorem lookup_mem_keys {l : List (Nat × Nat)} {a b : Nat}
    (h : l.lookup a = some b) : a ∈ l.map Prod.fst := by
  induction l with
  | nil => simp [List.lookup] at h
  | cons e rest ih =>
    rw [List.lookup] at h
    cases hk : a == e.1 with
    | true =>
      simp only [List.map, List.mem_cons]
      exact Or.inl (eq_of_beq hk)
    | false =>
      rw [hk] at h
      exact List.mem_cons_of_mem _ (ih h)

/-- Every frame the page table currently associates with pid is clean. -/
def CleanAt (s : BufferPoolManager) (pid : Nat) : Prop :=
  ∀ f, s.page_table.lookup pid = some f → (s.frames f).is_dirty = false

theorem flushPage_page_table (s : BufferPoolManager) (pid : Nat) :
    (s.FlushPage pid).2.1.page_table = s.page_table := by
  cases h : s.page_table.lookup pid with
  | none => simp [BufferPoolManager.FlushPage, h]
  | some f =>
    by_cases hd : (s.frames f).is_dirty = false <;>
      simp [BufferPoolManager.FlushPage, h, hd, updateFrame]

/-- FlushPage only ever clears dirty flags, it never sets one. -/
theorem flushPage_dirty_mono (s : BufferPoolManager) (pid i : Nat)
    (h : ((s.FlushPage pid).2.1.frames i).is_dirty = true) :
    (s.frames i).is_dirty = true := by
  cases hl : s.page_table.lookup pid with
  | none => simpa [BufferPoolManager.FlushPage, hl] using h
  | some f =>
    by_cases hd : (s.frames f).is_dirty = false
    · simpa [BufferPoolManager.FlushPage, hl, hd] using h
    · by_cases hif : i = f
      · subst hif
        simp [BufferPoolManager.FlushPage, hl, hd, updateFrame] at h
      · simpa [BufferPoolManager.FlushPage, hl, hd, updateFrame, hif] using h

/-- After FlushPage pid, the frame mapped to pid is clean. -/
theorem flushPage_cleanAt_self (s : BufferPoolManager) (pid : Nat) :
    CleanAt (s.FlushPage pid).2.1 pid := by
  intro f hf
  rw [flushPage_page_table] at hf
  by_cases hd : (s.frames f).is_dirty = false
  · simp [BufferPoolManager.FlushPage, hf, hd]
  · simp [BufferPoolManager.FlushPage, hf, hd, updateFrame]

/-- FlushPage preserves cleanliness of every page. -/
theorem flushPage_cleanAt_mono (s : BufferPoolManager) (pid q : Nat)
    (h : CleanAt s q) : CleanAt (s.FlushPage pid).2.1 q := by
  intro f hf
  rw [flushPage_page_table] at hf
  cases hres : ((s.FlushPage pid).2.1.frames f).is_dirty with
  | false => rfl
  | true => exact absurd (flushPage_dirty_mono s pid f hres) (by simp [h f hf])

theorem flushGo_page_table (l : List (Nat × Nat)) (s : BufferPoolManager) :
    (flushAllGo l s).1.page_table = s.page_table := by
  induction l generalizing s with
  | nil => rfl
  | cons e rest ih =>
    simp only [flushAllGo]
    rw [ih, flushPage_page_table]

theorem flushGo_cleanAt_mono (l : List (Nat × Nat)) (s : BufferPoolManager)
    (q : Nat) (h : CleanAt s q) : CleanAt (flushAllGo l s).1 q := by
  induction l generalizing s with
  | nil => exact h
  | cons e rest ih =>
    simp only [flushAllGo]
    exact ih _ (flushPage_cleanAt_mono s e.1 q h)

theorem flushGo_cleanAt_mem (l : List (Nat × Nat)) (s : BufferPoolManager)
    (q : Nat) (h : q ∈ l.map Prod.fst) : CleanAt (flushAllGo l s).1 q := by
  induction l generalizing s with
  | nil => simp at h
  | cons e rest ih =>
    simp only [flushAllGo]
    by_cases hq : q = e.1
    · subst hq
      exact flushGo_cleanAt_mono rest _ e.1 (flushPage_cleanAt_self s e.1)
    · have hr : q ∈ rest.map Prod.fst := by
        simpa [hq] using h
      exact ih _ hr

/-- After FlushAllPages, every resident page's frame is clean. -/
theorem flushAll_cleanAt (s : BufferPoolManager) (pid : Nat) :
    CleanAt (s.FlushAllPages).1 pid := by
  by_cases hmem : pid ∈ s.page_table.map Prod.fst
  · exact flushGo_cleanAt_mem s.page_table s pid hmem
  · intro f hf
    rw [show (s.FlushAllPages).1.page_table = s.page_table from
      flushGo_page_table s.page_table s] at hf
    exact absurd (lookup_mem_keys hf) hmem

/-- A FlushPage of a page whose frame is clean (or which is absent) does
nothing and returns false. -/
theorem flushPage_of_cleanAt (s : BufferPoolManager) (pid : Nat)
    (h : CleanAt s pid) : s.FlushPage pid = (false, s, []) := by
  cases hl : s.page_table.lookup pid with
  | none => simp [BufferPoolManager.FlushPage, hl]
  | some f => simp [BufferPoolManager.FlushPage, hl, h f hl]

theorem flushGo_noop (l : List (Nat × Nat)) (s : BufferPoolManager)
    (h : ∀ q ∈ l.map Prod.fst, CleanAt s q) : flushAllGo l s = (s, []) := by
  induction l with
  | nil => rfl
  | cons e rest ih =>
    have he : s.FlushPage e.1 = (false, s, []) :=
      flushPage_of_cleanAt s e.1 (h e.1 (by simp))
    have hr := ih (fun q hq => h q (by simp [hq]))
    simp [flushAllGo, he, hr]

/-- C6: FlushAllPages walks the page table calling FlushPage on every
resident page id, after which every resident frame is clean and the page
table is unchanged; a second FlushAllPages on the resulting (idle) pool is a
complete no-op: it changes nothing and flushes nothing (empty I/O trace). -/
theorem C6_flushAllPages (s : BufferPoolManager) :
    (∀ pid f, ((s.FlushAllPages).1).page_table.lookup pid = some f →
        (((s.FlushAllPages).1).frames f).is_dirty = false)
  ∧ ((s.FlushAllPages).1).page_table = s.page_table
  ∧ ((s.FlushAllPages).1).FlushAllPages = ((s.FlushAllPages).1, []) := by
  refine ⟨fun pid f hf => flushAll_cleanAt s pid f hf,
    flushGo_page_table s.page_table s, ?_⟩
  exact flushGo_noop _ _ (fun q _ => flushAll_cleanAt s q)

/-- Witness for C6 on the concrete pool sDel (page 0 resident and dirty):
after one FlushAllPages the frame is clean and the second call is a no-op. -/
theorem C6_flushAllPages_witness :
    (((sDel.FlushAllPages).1).frames 0).is_dirty = false
  ∧ ((sDel.FlushAllPages).1).FlushAllPages = ((sDel.FlushAllPages).1, []) :=
  ⟨(C6_flushAllPages sDel).1 0 0 (by decide), (C6_flushAllPages sDel).2.2⟩
